import Mathlib

set_option maxRecDepth 4000

/-!
Verification development for the cargo-test-annotations parser.

The definitions below are a shallow embedding of `src/lib.rs` (the stream
partitioner `parse`, the run parser `TestRunParser::parse` with its nested
failure-block machine, and the `FromStr` impls) and of the doctest location
correction in `src/main.rs`. Rust `String` is modelled by Lean `String`,
`usize`/`u64` by `Nat`, the fallible paths by `Except PError`, and Rust
panics (`expect`, `unwrap`, `unreachable!`) by the distinguished
`PError.panic` constructor carrying the panic message. The record stream is
a `List Message`; the `Peekable` iterator becomes explicit list passing.
Loops are written with a fuel parameter; the top-level entry points supply
fuel large enough that exhaustion is unreachable (every loop iteration of
the source consumes at least one record).
-/

/-- One `cargo_metadata::Artifact`, reduced to the fields the parser reads:
the package id, whether `executable` is `Some`, and the feature list. -/
structure Artifact where
  package_id : String
  executable : Bool
  features : List String
deriving DecidableEq

/-- One record of the input stream: `Message::CompilerArtifact`,
`Message::TextLine`, or any other (irrelevant) message variant. -/
inductive Message where
  | compilerArtifact (a : Artifact)
  | textLine (s : String)
  | other
deriving DecidableEq

/-- Whether a record is a `TextLine`. -/
def Message.isText : Message → Bool
  | .textLine _ => true
  | _ => false

/-- Whether a record is a `CompilerArtifact` whose `executable` is `Some`. -/
def Message.isExecArtifact : Message → Bool
  | .compilerArtifact a => a.executable
  | _ => false

/-- A workspace package, reduced to the fields the partitioner reads. -/
structure Package where
  id : String
  name : String
deriving DecidableEq

/-- `TestResultKind` from lib.rs. -/
inductive TestResultKind where
  | ok
  | failed
deriving DecidableEq

/-- `TestFailureLocation` from lib.rs. -/
structure TestFailureLocation where
  file : String
  line : Nat
  column : Nat
deriving DecidableEq

/-- `TestFailureInfo` from lib.rs. -/
structure TestFailureInfo where
  panic_text : String
  location : TestFailureLocation
  stacktrace : String
deriving DecidableEq

/-- `TestResultValue` from lib.rs. -/
inductive TestResultValue where
  | ok
  | failed (info : TestFailureInfo)
deriving DecidableEq

/-- `TestResult` from lib.rs. -/
structure TestResult where
  name : String
  result : TestResultValue
deriving DecidableEq

/-- `TestSummary` from lib.rs. -/
structure TestSummary where
  result : TestResultKind
  passed : Nat
  failed : Nat
  ignored : Nat
  measured : Nat
  filtered : Nat
  time : String
deriving DecidableEq

/-- `TestData` from lib.rs. -/
structure TestData where
  test_count : Nat
  test_results : List TestResult
  test_summary : TestSummary
deriving DecidableEq

/-- `TestRun` from lib.rs. -/
structure TestRun where
  package : Package
  features : List String
  test_run : TestData
  doc_test_run : TestData
deriving DecidableEq

/-- `TestRunParserState` from lib.rs. -/
inductive TestRunParserState where
  | initial
  | tests
  | failuresOutput
  | failuresListing
  | results
  | done
deriving DecidableEq

/-- `TestRunFailureParserState` from lib.rs. -/
inductive TestRunFailureParserState where
  | initial
  | header
  | panic
  | stacktrace
  | done
deriving DecidableEq

/-- `TestRunParserPhase` from lib.rs. -/
inductive TestRunParserPhase where
  | tests
  | docTests
  | done
deriving DecidableEq

/-- `TestResultParseResult` from lib.rs: a pending result recorded during
the Tests state, with failure info spliced in later. -/
structure TestResultParseResult where
  name : String
  kind : TestResultKind
  failure_info : Option TestFailureInfo
deriving DecidableEq

/-- `TestDataParseResult` from lib.rs. -/
structure TestDataParseResult where
  test_count : Nat
  test_results : List TestResultParseResult
  test_summary : TestSummary
deriving DecidableEq

/-- Failure outcomes of the embedded code. `panic` models a Rust panic
(`expect`, `unwrap`, `unreachable!`) with its message; the other
constructors model the recoverable `miette` error values the code returns
(`?`-propagation). -/
inductive PError where
  | panic (msg : String)
  | unresolvedPackage (package_id : String)
  | unexpectedRecord (m : Message) (state : TestRunParserState)
  | unknownOutcome (s : String)
  | locationParse (s : String)
  | doctestNameFormat (name : String)
deriving DecidableEq

/-- The panic message of `Option::unwrap` on `None`. -/
def unwrapMsg : String := "called `Option::unwrap()` on a `None` value"

/-- `Option::unwrap`: panics on `None`. -/
def optUnwrap {α : Type} : Option α → Except PError α
  | some a => .ok a
  | none => .error (.panic unwrapMsg)

/-! String helpers modelling the Rust std string operations used by the
source, written over `List Char` (the `data` of a `String`). -/

/-- `str::rfind(char)`: index of the last occurrence of `c`. -/
def rfindIdx : List Char → Char → Option Nat
  | [], _ => none
  | x :: xs, c =>
    match rfindIdx xs c with
    | some i => some (i + 1)
    | none => if x = c then some 0 else none

/-- `str::strip_prefix`: drop the pattern if it is a prefix of the list,
returning the remainder. -/
def stripPre? : List Char → List Char → Option (List Char)
  | [], l => some l
  | _ :: _, [] => none
  | p :: ps, c :: cs => if p = c then stripPre? ps cs else none

/-- `str::trim` over a char list. -/
def trimL (l : List Char) : List Char :=
  ((l.dropWhile Char.isWhitespace).reverse.dropWhile Char.isWhitespace).reverse

/-- `str::trim` packaged on `String`. -/
def strTrim (s : String) : String := String.mk (trimL s.data)

/-- Regex `\d` (restricted to the ASCII digits that appear in the grammar). -/
def isDigitChar (c : Char) : Bool := '0' ≤ c && c ≤ '9'

/-- Numeric value of a digit string, as produced by `str::parse` on a
`\d+` capture. -/
def charsToNat (l : List Char) : Nat :=
  l.foldl (fun acc c => acc * 10 + (c.toNat - '0'.toNat)) 0

/-! Models of the four thread-local regexes of lib.rs and the doctest name
regex of main.rs. Each is an unanchored leftmost search; lazy `.+?`
captures try the shortest extent first, and `.` does not match a newline. -/

/-- `RUNNING_REGEX` = `running (?P<count>\d+) tests?`, matched at one
position: the literal, one or more digits, then a space and `test` (the
trailing `s?` is optional and capture-irrelevant). -/
def runningMatchAt (l : List Char) : Option Nat :=
  match stripPre? "running ".data l with
  | none => none
  | some rest =>
    let ds := rest.takeWhile isDigitChar
    if ds.isEmpty then none
    else if " test".data.isPrefixOf (rest.dropWhile isDigitChar) then some (charsToNat ds)
    else none

/-- Leftmost search for `RUNNING_REGEX`. -/
def runningSearch : List Char → Option Nat
  | [] => none
  | x :: rest =>
    match runningMatchAt (x :: rest) with
    | some n => some n
    | none => runningSearch rest

/-- Captures of `RUNNING_REGEX` on a line. -/
def runningCaptures (s : String) : Option Nat := runningSearch s.data

/-- Alternation `(?P<result>ok|FAILED)` as a prefix, first branch first. -/
def testResultToken (rest : List Char) : Option String :=
  if "ok".data.isPrefixOf rest then some "ok"
  else if "FAILED".data.isPrefixOf rest then some "FAILED"
  else none

/-- In `TEST_REGEX` = `test (?P<name>.+?) ... (?P<result>ok|FAILED)`,
the part after the name: a space, three arbitrary non-newline characters
(the unescaped dots), a space, then the alternation. -/
def testAfterName : List Char → Option String
  | ' ' :: a :: b :: c :: ' ' :: rest =>
    if a != '\n' && b != '\n' && c != '\n' then testResultToken rest else none
  | _ => none

/-- Lazy extension of the `name` capture of `TEST_REGEX`. -/
def testNameSearch : List Char → List Char → Option (String × String)
  | _, [] => none
  | acc, c :: rest =>
    if c = '\n' then none
    else
      match testAfterName rest with
      | some r => some (String.mk (acc ++ [c]), r)
      | none => testNameSearch (acc ++ [c]) rest

/-- Leftmost search for `TEST_REGEX`. -/
def testSearch : List Char → Option (String × String)
  | [] => none
  | x :: rest =>
    match
      (match stripPre? "test ".data (x :: rest) with
       | some tl => testNameSearch [] tl
       | none => none) with
    | some r => some r
    | none => testSearch rest

/-- Captures (name, result token) of `TEST_REGEX` on a line. -/
def testCaptures (s : String) : Option (String × String) := testSearch s.data

/-- In `FAILURE_HEADER_REGEX` = `---- (?P<name>.+?) stdout ----`, the part
after the name. -/
def headerAfterName (rest : List Char) : Bool := " stdout ----".data.isPrefixOf rest

/-- Lazy extension of the `name` capture of `FAILURE_HEADER_REGEX`. -/
def headerNameSearch : List Char → List Char → Option String
  | _, [] => none
  | acc, c :: rest =>
    if c = '\n' then none
    else if headerAfterName rest then some (String.mk (acc ++ [c]))
    else headerNameSearch (acc ++ [c]) rest

/-- Leftmost search for `FAILURE_HEADER_REGEX`. -/
def headerSearch : List Char → Option String
  | [] => none
  | x :: rest =>
    match
      (match stripPre? "---- ".data (x :: rest) with
       | some tl => headerNameSearch [] tl
       | none => none) with
    | some r => some r
    | none => headerSearch rest

/-- Captures of `FAILURE_HEADER_REGEX` on a line. -/
def failureHeaderCaptures (s : String) : Option String := headerSearch s.data

/-- In `RESULT_REGEX`, everything after the outcome token: one arbitrary
non-newline character (the unescaped dot), a space, then the five counts
and the elapsed-time capture `(?P<time>.+)`. -/
def resultAfterKind (rest : List Char) : Option (Nat × Nat × Nat × Nat × Nat × String) :=
  match rest with
  | c :: ' ' :: rest1 =>
    if c = '\n' then none else
    let d1 := rest1.takeWhile isDigitChar
    if d1.isEmpty then none else
    match stripPre? " passed; ".data (rest1.dropWhile isDigitChar) with
    | none => none
    | some r2 =>
      let d2 := r2.takeWhile isDigitChar
      if d2.isEmpty then none else
      match stripPre? " failed; ".data (r2.dropWhile isDigitChar) with
      | none => none
      | some r4 =>
        let d3 := r4.takeWhile isDigitChar
        if d3.isEmpty then none else
        match stripPre? " ignored; ".data (r4.dropWhile isDigitChar) with
        | none => none
        | some r6 =>
          let d4 := r6.takeWhile isDigitChar
          if d4.isEmpty then none else
          match stripPre? " measured; ".data (r6.dropWhile isDigitChar) with
          | none => none
          | some r8 =>
            let d5 := r8.takeWhile isDigitChar
            if d5.isEmpty then none else
            match stripPre? " filtered out; finished in ".data (r8.dropWhile isDigitChar) with
            | none => none
            | some r10 =>
              let time := r10.takeWhile (fun c => c ≠ '\n')
              if time.isEmpty then none
              else some (charsToNat d1, charsToNat d2, charsToNat d3,
                         charsToNat d4, charsToNat d5, String.mk time)
  | _ => none

/-- `RESULT_REGEX` matched at one position (both alternation branches are
tried, first `ok` then `FAILED`). -/
def resultMatchAt (l : List Char) : Option (String × Nat × Nat × Nat × Nat × Nat × String) :=
  match stripPre? "test result: ".data l with
  | none => none
  | some rest =>
    let tryFailed : Option (String × Nat × Nat × Nat × Nat × Nat × String) :=
      match stripPre? "FAILED".data rest with
      | some r2 =>
        match resultAfterKind r2 with
        | some t => some ("FAILED", t)
        | none => none
      | none => none
    match stripPre? "ok".data rest with
    | some r =>
      match resultAfterKind r with
      | some t => some ("ok", t)
      | none => tryFailed
    | none => tryFailed

/-- Leftmost search for `RESULT_REGEX`. -/
def resultSearch : List Char → Option (String × Nat × Nat × Nat × Nat × Nat × String)
  | [] => none
  | x :: rest =>
    match resultMatchAt (x :: rest) with
    | some r => some r
    | none => resultSearch rest

/-- Captures (result token, passed, failed, ignored, measured, filtered,
time) of `RESULT_REGEX` on a line. -/
def resultCaptures (s : String) : Option (String × Nat × Nat × Nat × Nat × Nat × String) :=
  resultSearch s.data

/-- In `DOCTEST_NAME_FILE_REGEX` = `(?P<file>.+?) - \(line (?P<line>\d+)\)`,
the part after the file capture. -/
def doctestAfterFile (rest : List Char) : Option Nat :=
  match stripPre? " - (line ".data rest with
  | none => none
  | some r =>
    let ds := r.takeWhile isDigitChar
    if ds.isEmpty then none
    else
      match r.dropWhile isDigitChar with
      | ')' :: _ => some (charsToNat ds)
      | _ => none

/-- Lazy extension of the `file` capture. Any match of the doctest name
regex starts at position 0 (a later-starting match would extend to an
earlier-starting one), so the search is anchored here. -/
def doctestNameSearch : List Char → List Char → Option (String × Nat)
  | _, [] => none
  | acc, c :: rest =>
    if c = '\n' then none
    else
      match doctestAfterFile rest with
      | some n => some (String.mk (acc ++ [c]), n)
      | none => doctestNameSearch (acc ++ [c]) rest

/-- Captures (file, line) of `DOCTEST_NAME_FILE_REGEX` on a doctest name. -/
def doctestNameCaptures (s : String) : Option (String × Nat) := doctestNameSearch [] s.data

/-! The `FromStr` impls of lib.rs and the panic-text split. -/

/-- `TestResultKind::from_str` (lib.rs). -/
def TestResultKind.fromStr (s : String) : Except PError TestResultKind :=
  if s = "ok" then .ok .ok
  else if s = "FAILED" then .ok .failed
  else .error (.unknownOutcome s)

/-- `str::split(char)`: the separated parts, always at least one. -/
def splitOnChar (c : Char) : List Char → List (List Char)
  | [] => [[]]
  | x :: xs =>
    if x = c then [] :: splitOnChar c xs
    else
      match splitOnChar c xs with
      | [] => [[x]]
      | h :: t => (x :: h) :: t

/-- `u64::from_str` on a captured field: optional leading plus sign, then
one or more digits. -/
def parseU64L? (l0 : List Char) : Option Nat :=
  let l := match l0 with
           | '+' :: rest => rest
           | l => l
  if l.isEmpty then none
  else if l.all isDigitChar then some (charsToNat l) else none

/-- `TestFailureLocation::from_str` (lib.rs): split on each colon, read the
first three fields as file, line, column; any failure yields the
`TestFailureLocationParseError` carrying the whole input. -/
def TestFailureLocation.fromStr (s : String) : Except PError TestFailureLocation :=
  match splitOnChar ':' s.data with
  | file :: lineStr :: colStr :: _ =>
    match parseU64L? lineStr, parseU64L? colStr with
    | some line, some col => .ok ⟨String.mk file, line, col⟩
    | _, _ => .error (.locationParse s)
  | _ => .error (.locationParse s)

/-- The Panic-state split of lib.rs, executed when the `stack backtrace:`
sentinel is peeked: `rfind` the last comma (`expect` panics when there is
none), split there, strip the leading comma-space from the right part
(`expect` panics when it is absent) and trim it. -/
def splitPanicText (textInner : String) : Except PError (String × String) :=
  match rfindIdx textInner.data ',' with
  | none => .error (.panic "regular panic format")
  | some rpos =>
    let pt := textInner.data.take rpos
    let l := textInner.data.drop rpos
    match stripPre? ", ".data l with
    | none => .error (.panic "regular panic format")
    | some l2 => .ok (String.mk pt, String.mk (trimL l2))

/-! The nested failure-block machine (lib.rs, `FailuresOutput` state). -/

/-- The four accumulators of one failure block. -/
structure FailureBlockAcc where
  name : Option String := none
  panic_text : Option String := none
  location : Option String := none
  stacktrace : Option String := none
deriving DecidableEq

/-- The Panic-state peek loop: accumulate text lines (joined with a
newline) while the peeked line is not the sentinel. Returns the
accumulated text, whether the sentinel was peeked, and the stream with the
peeked record still at the front. -/
def panicAccumulate : String → List Message → String × Bool × List Message
  | ti, .textLine t :: rest =>
    if trimL t.data ≠ "stack backtrace:".data
    then panicAccumulate (ti ++ "\n" ++ t) rest
    else (ti, true, .textLine t :: rest)
  | ti, s => (ti, false, s)

/-- The Stacktrace-state peek loop: accumulate while the peeked line is
non-blank. -/
def stacktraceAccumulate : String → List Message → String × Bool × List Message
  | ti, .textLine t :: rest =>
    if trimL t.data ≠ []
    then stacktraceAccumulate (ti ++ "\n" ++ t) rest
    else (ti, true, .textLine t :: rest)
  | ti, s => (ti, false, s)

/-- One state action of the inner failure machine, before the trailing
consume. Returns the next state, updated accumulators, and the stream
after any peeking. -/
def failureStep (fps : TestRunFailureParserState) (ti : String) (acc : FailureBlockAcc)
    (stream : List Message) :
    Except PError (TestRunFailureParserState × FailureBlockAcc × List Message) :=
  match fps with
  | .initial =>
    if trimL ti.data = "failures:".data
    then .ok (.header, acc, stream)
    else .ok (.initial, acc, stream)
  | .header =>
    match failureHeaderCaptures ti with
    | some n => .ok (.panic, { acc with name := some n }, stream)
    | none => .ok (.header, acc, stream)
  | .panic =>
    let r := panicAccumulate ti stream
    if r.2.1 then
      match splitPanicText r.1 with
      | .error e => .error e
      | .ok pl =>
        .ok (.stacktrace, { acc with panic_text := some pl.1, location := some pl.2 }, r.2.2)
    else .ok (.panic, acc, r.2.2)
  | .stacktrace =>
    let r := stacktraceAccumulate ti stream
    if r.2.1 then .ok (.done, { acc with stacktrace := some r.1 }, r.2.2)
    else .ok (.stacktrace, acc, r.2.2)
  | .done => .error (.panic "internal error: entered unreachable code")

/-- The inner `while failure_parsing_state != Done` loop: run the state
action, then unconditionally consume the next record into `text_inner`
(panicking when the stream is exhausted, failing with `UnexpectedRecord`
on a non-text record). -/
def failureInner : Nat → TestRunFailureParserState → String → FailureBlockAcc →
    List Message → Except PError (FailureBlockAcc × List Message)
  | 0, _, _, _, _ => .error (.panic "fuel exhausted")
  | fuel + 1, fps, ti, acc, stream =>
    match fps with
    | .done => .ok (acc, stream)
    | _ =>
      match failureStep fps ti acc stream with
      | .error e => .error e
      | .ok (fps2, acc2, s2) =>
        match s2 with
        | [] => .error (.panic "we\x27re not done")
        | .textLine t :: rest => failureInner fuel fps2 t acc2 rest
        | m :: _ => .error (.unexpectedRecord m .failuresOutput)

/-- The post-block scan of lib.rs: peek forward past unrelated text lines
until another failure header (loop back to `Header`) or the `failures:`
listing marker (leave the failure loop) is seen; neither is consumed. -/
def scanAhead : List Message → Bool × Bool × List Message
  | .textLine t :: rest =>
    if (failureHeaderCaptures t).isSome then (true, false, .textLine t :: rest)
    else if trimL t.data = "failures:".data then (false, true, .textLine t :: rest)
    else scanAhead rest
  | s => (false, false, s)

/-- The failure-attachment step of lib.rs: `iter_mut().find` the first
pending result with the block name and splice the failure info into it;
the `unwrap` on the find panics when no name matches. -/
def attachFailure : List TestResultParseResult → String → TestFailureInfo →
    Except PError (List TestResultParseResult)
  | [], _, _ => .error (.panic unwrapMsg)
  | r :: rs, nm, info =>
    if r.name = nm then .ok ({ r with failure_info := some info } :: rs)
    else
      match attachFailure rs nm info with
      | .error e => .error e
      | .ok rs2 => .ok (r :: rs2)

/-- The outer `while more_failures` loop of the `FailuresOutput` state:
parse one block with the inner machine, unwrap the four accumulators
(each `unwrap` panics on `None`), parse the location string, splice the
`TestFailureInfo` into the pending results, then scan ahead for the next
header or the listing marker. -/
def failureOuter : Nat → TestRunFailureParserState → String → List TestResultParseResult →
    List Message → Except PError (List TestResultParseResult × List Message)
  | 0, _, _, _, _ => .error (.panic "fuel exhausted")
  | fuel + 1, fps, text, results, stream => do
    let (acc, s2) ← failureInner (stream.length + 2) fps text {} stream
    let pt ← optUnwrap acc.panic_text
    let locStr ← optUnwrap acc.location
    let loc ← TestFailureLocation.fromStr locStr
    let st ← optUnwrap acc.stacktrace
    let nm ← optUnwrap acc.name
    let results2 ← attachFailure results nm (TestFailureInfo.mk pt loc st)
    let r := scanAhead s2
    if r.2.1 then .ok (results2, r.2.2)
    else failureOuter fuel (if r.1 then .header else .done) "" results2 r.2.2

/-! The outer run-parser machine (lib.rs, `TestRunParser::parse`). -/

/-- The mutable fields of `TestRunParser`. -/
structure ParserS where
  phase : TestRunParserPhase
  state : TestRunParserState
  test_count : Nat
  test_results : List TestResultParseResult
  test_run : Option TestDataParseResult
  doc_test_run : Option TestDataParseResult
deriving DecidableEq

/-- The `FailuresListing` peek loop: consume non-blank text lines; on a
blank peeked line move to `Results` without consuming it. -/
def listingSkip : List Message → Bool × List Message
  | .textLine t :: rest =>
    if trimL t.data ≠ [] then listingSkip rest
    else (true, .textLine t :: rest)
  | s => (false, s)

/-- The `TextLine` dispatch of the run parser main loop: one consumed line
handled according to the current state. Returns the updated parser and the
remaining stream. -/
def handleText (p : ParserS) (text : String) (stream : List Message) :
    Except PError (ParserS × List Message) :=
  match p.state with
  | .initial =>
    match runningCaptures text with
    | some n =>
      .ok ({ p with test_count := n,
                    state := if n > 0 then .tests else .results }, stream)
    | none => .ok (p, stream)
  | .tests =>
    match testCaptures text with
    | some nr =>
      match TestResultKind.fromStr nr.2 with
      | .error e => .error e
      | .ok kind =>
        .ok ({ p with test_results := p.test_results ++ [⟨nr.1, kind, none⟩] }, stream)
    | none =>
      if p.test_results.any (fun r => r.kind == TestResultKind.failed)
      then .ok ({ p with state := .failuresOutput }, stream)
      else .ok ({ p with state := .results }, stream)
  | .failuresOutput =>
    match failureOuter (stream.length + 2) .initial text p.test_results stream with
    | .error e => .error e
    | .ok (results2, s2) =>
      .ok ({ p with test_results := results2, state := .failuresListing }, s2)
  | .failuresListing =>
    let r := listingSkip stream
    if r.1 then .ok ({ p with state := .results }, r.2) else .ok (p, r.2)
  | .results =>
    match resultCaptures text with
    | some cap =>
      match TestResultKind.fromStr cap.1 with
      | .error e => .error e
      | .ok kind =>
        let summary : TestSummary :=
          ⟨kind, cap.2.1, cap.2.2.1, cap.2.2.2.1, cap.2.2.2.2.1, cap.2.2.2.2.2.1,
           cap.2.2.2.2.2.2⟩
        let td : TestDataParseResult := ⟨p.test_count, p.test_results, summary⟩
        match p.phase with
        | .tests =>
          .ok ({ p with test_run := some td, test_results := [], state := .done }, stream)
        | .docTests =>
          .ok ({ p with doc_test_run := some td, test_results := [], state := .done }, stream)
        | .done => .error (.panic "internal error: entered unreachable code")
    | none => .ok (p, stream)
  | .done => .error (.panic "internal error: entered unreachable code")

/-- The two nested while loops of `TestRunParser::parse`, flattened: while
the phase is not `Done`, run the state machine to `Done` (consuming one
record per iteration, panicking when the stream runs dry mid-parse,
failing with `UnexpectedRecord` on a non-text record), then advance the
phase, resetting state and test counter for the doctest pass. -/
def runParserLoop : Nat → ParserS → List Message → Except PError (ParserS × List Message)
  | 0, _, _ => .error (.panic "fuel exhausted")
  | fuel + 1, p, stream =>
    if p.phase = .done then .ok (p, stream)
    else if p.state = .done then
      match p.phase with
      | .tests =>
        runParserLoop fuel { p with phase := .docTests, state := .initial, test_count := 0 } stream
      | .docTests => runParserLoop fuel { p with phase := .done } stream
      | .done => .error (.panic "internal error: entered unreachable code")
    else
      match stream with
      | [] => .error (.panic "we\x27re in the middle of parsing")
      | .textLine t :: rest =>
        match handleText p t rest with
        | .error e => .error e
        | .ok (p2, s2) => runParserLoop fuel p2 s2
      | m :: _ => .error (.unexpectedRecord m p.state)

/-! Result assembly (the `From` impls of lib.rs). -/

/-- `impl From<TestResultParseResult> for TestResult`: a `Failed` kind
unwraps its spliced failure info (panicking when it was never attached). -/
def TestResultParseResult.toTestResult (t : TestResultParseResult) : Except PError TestResult :=
  match t.kind with
  | .ok => .ok ⟨t.name, .ok⟩
  | .failed =>
    match t.failure_info with
    | some info => .ok ⟨t.name, .failed info⟩
    | none => .error (.panic unwrapMsg)

/-- `impl From<TestDataParseResult> for TestData`. -/
def TestDataParseResult.toTestData (td : TestDataParseResult) : Except PError TestData := do
  let rs ← td.test_results.mapM TestResultParseResult.toTestResult
  .ok ⟨td.test_count, rs, td.test_summary⟩

/-- `impl From<TestRunParser> for TestRun`: unwrap both phase results
(panicking when a phase never completed) and convert them. -/
def ParserS.toTestRun (p : ParserS) (package : Package) (features : List String) :
    Except PError TestRun := do
  let tr ← optUnwrap p.test_run
  let trd ← tr.toTestData
  let dtr ← optUnwrap p.doc_test_run
  let dtrd ← dtr.toTestData
  .ok ⟨package, features, trd, dtrd⟩

/-- `TestRunParser::parse`: run the machine from the fresh state
(`Tests` phase, `Initial` state) and assemble the `TestRun`. -/
def TestRunParser.parse (package : Package) (features : List String) (stream : List Message) :
    Except PError (TestRun × List Message) := do
  let pair ← runParserLoop (stream.length + 4) ⟨.tests, .initial, 0, [], none, none⟩ stream
  let run ← pair.1.toTestRun package features
  .ok (run, pair.2)

/-! The stream partitioner (lib.rs, top-level `parse`). -/

/-- The trailing-text discard after a run parser returns. -/
def skipTextLines : List Message → List Message
  | .textLine _ :: rest => skipTextLines rest
  | s => s

/-- The partitioner loop: remember the latest executable artifact; on a
text line, resolve its package (an `expect` panic when no artifact was
seen, the `UnresolvedPackage` error when the id matches no workspace
package), run a fresh run parser on the rest of the stream, discard
trailing text lines, and continue. Other records are ignored. -/
def parseLoop : Nat → List Package → Option Artifact → List TestRun → List Message →
    Except PError (List TestRun)
  | _, _, _, acc, [] => .ok acc
  | 0, _, _, _, _ :: _ => .error (.panic "fuel exhausted")
  | fuel + 1, pkgs, current, acc, m :: rest =>
    match m with
    | .compilerArtifact a =>
      if a.executable then parseLoop fuel pkgs (some a) acc rest
      else parseLoop fuel pkgs current acc rest
    | .textLine _ =>
      match current with
      | none => .error (.panic "No current artifact. Is the input data malformed?")
      | some artifact =>
        match pkgs.find? (fun w => w.id == artifact.package_id) with
        | none => .error (.unresolvedPackage artifact.package_id)
        | some package =>
          match TestRunParser.parse package artifact.features rest with
          | .error e => .error e
          | .ok (run, s2) =>
            parseLoop fuel pkgs (some artifact) (acc ++ [run]) (skipTextLines s2)
    | .other => parseLoop fuel pkgs current acc rest

/-- The top-level `parse` of lib.rs, with the workspace packages standing
in for the `Metadata` argument. -/
def parse (workspacePackages : List Package) (stream : List Message) :
    Except PError (List TestRun) :=
  parseLoop (stream.length + 1) workspacePackages none [] stream

/-! Doctest location correction (main.rs). -/

/-- The doctest location correction of main.rs: capture file and line from
the doctest name, then `real_line = location.line + line - 3` and
`real_column = location.column + 4`; a name that does not match the
regex is the fatal doctest-title error. -/
def doctestCorrection (name : String) (location : TestFailureLocation) :
    Except PError (String × Nat × Nat) :=
  match doctestNameCaptures name with
  | some fl => .ok (fl.1, location.line + fl.2 - 3, location.column + 4)
  | none => .error (.doctestNameFormat name)

/-! Counting helpers used by the statements about assembled test data. -/

/-- The failure info carried by a result value, when present. -/
def TestResultValue.failureInfo? : TestResultValue → Option TestFailureInfo
  | .ok => none
  | .failed info => some info

/-- Whether a result value is a failure. -/
def TestResultValue.isFailed : TestResultValue → Bool
  | .ok => false
  | .failed _ => true

/-- Number of `FailureInfo` values attached to a `TestData`. -/
def TestData.failureInfoCount (td : TestData) : Nat :=
  (td.test_results.filter (fun r => (TestResultValue.failureInfo? r.result).isSome)).length

/-- Number of results of a `TestData` with a `Failed` outcome. -/
def TestData.failedCount (td : TestData) : Nat :=
  (td.test_results.filter (fun r => TestResultValue.isFailed r.result)).length

deriving instance DecidableEq for Except

/-! Concrete fixtures used by the closed statements below. -/

/-- A workspace package fixture. -/
def pkgA : Package := ⟨"pkg-id-a", "a"⟩

/-- An executable artifact fixture belonging to `pkgA`. -/
def artifactA : Artifact := ⟨"pkg-id-a", true, ["feat1"]⟩

/-- Short-hand for a text record. -/
def tline (s : String) : Message := .textLine s

/-- A stream with one failing test whose failure block names a test that
was never recorded during the Tests state. -/
def c3stream : List Message :=
  [.compilerArtifact artifactA, tline "",
   tline "running 2 tests",
   tline "test a ... ok",
   tline "test b ... FAILED",
   tline "",
   tline "failures:",
   tline "",
   tline "---- c stdout ----",
   tline "thread c panicked at boom, src/lib.rs:10:5",
   tline "stack backtrace:",
   tline "   0: rust_begin_unwind",
   tline "",
   tline "failures:"]

/-- A stream that parses to completion with exactly one attached failure
while its summary line reports five failures. -/
def c4stream : List Message :=
  [.compilerArtifact artifactA, tline "",
   tline "running 2 tests",
   tline "test a ... ok",
   tline "test b ... FAILED",
   tline "",
   tline "failures:",
   tline "",
   tline "---- b stdout ----",
   tline "thread b panicked at boom, src/lib.rs:10:5",
   tline "stack backtrace:",
   tline "   0: rust_begin_unwind",
   tline "",
   tline "failures:",
   tline "    b",
   tline "",
   tline "test result: FAILED. 1 passed; 5 failed; 0 ignored; 0 measured; 0 filtered out; finished in 0.01s",
   tline "",
   tline "running 0 tests",
   tline "",
   tline "test result: ok. 0 passed; 0 failed; 0 ignored; 0 measured; 0 filtered out; finished in 0.00s"]

/-- A stream whose failure block accumulates comma-free panic text before
the backtrace sentinel. -/
def c10stream : List Message :=
  [.compilerArtifact artifactA, tline "",
   tline "running 1 test",
   tline "test a ... FAILED",
   tline "",
   tline "failures:",
   tline "",
   tline "---- a stdout ----",
   tline "a panic line with no comma",
   tline "stack backtrace:"]

/-- The fresh parser state built by `TestRunParser::new`. -/
def pInit : ParserS := ⟨.tests, .initial, 0, [], none, none⟩

/-- A failure-info fixture. -/
def infoW : TestFailureInfo := ⟨"p", ⟨"f", 1, 2⟩, "s"⟩

/-- An empty `TestData` used as a fallback value. -/
def emptyData : TestData := ⟨0, [], ⟨.ok, 0, 0, 0, 0, 0, ""⟩⟩

/-- A fallback `TestRun` used when extracting from a parse result. -/
def dummyRun : TestRun := ⟨⟨"", ""⟩, [], emptyData, emptyData⟩

/-- The run list produced by parsing `c4stream`. -/
def c4runs : List TestRun :=
  match parse [pkgA] c4stream with
  | .ok rs => rs
  | .error _ => []

/-- The first run produced by parsing `c4stream`. -/
def c4run : TestRun := c4runs.headD dummyRun

/-! Helper lemmas. -/

/-- rfind misses a character that does not occur. -/
theorem rfindIdx_eq_none {c : Char} : ∀ {l : List Char}, c ∉ l → rfindIdx l c = none
  | [], _ => rfl
  | x :: xs, h => by
    have hx : x ≠ c := fun e => h (e ▸ List.mem_cons_self x xs)
    have hxs : c ∉ xs := fun m => h (List.mem_cons_of_mem x m)
    simp [rfindIdx, rfindIdx_eq_none hxs, hx]

/-- rfind locates the last occurrence: with no occurrence to the right of
it, the index of an explicit occurrence is returned. -/
theorem rfindIdx_append {c : Char} (xs : List Char) {ys : List Char} (hys : c ∉ ys) :
    rfindIdx (xs ++ c :: ys) c = some xs.length := by
  induction xs with
  | nil => simp [rfindIdx, rfindIdx_eq_none hys]
  | cons x xs ih => simp [rfindIdx, ih]

/-- A result value carries failure info exactly when it is a failure. -/
theorem failureInfo_isSome_eq_isFailed (v : TestResultValue) :
    (TestResultValue.failureInfo? v).isSome = TestResultValue.isFailed v := by
  cases v <;> rfl

/-- In every assembled `TestData` the attached failure infos are exactly
the failed results. -/
theorem testData_count_eq (td : TestData) : td.failureInfoCount = td.failedCount := by
  unfold TestData.failureInfoCount TestData.failedCount
  induction td.test_results with
  | nil => rfl
  | cons r rs ih =>
    simp only [List.filter, failureInfo_isSome_eq_isFailed]

/-- C1: in the failure-block Panic state, when the backtrace sentinel is
peeked the accumulated panic text is split at its last comma, everything
before becoming the panic message and everything after, with the leading
comma-space stripped (and surrounding whitespace trimmed), becoming the
location string; on the text of the split law the message is
`assertion failed: a == b`, and the location string parses to the
location `src/lib.rs`, line 10, column 5. -/
theorem panic_split_law :
    (∀ pre post : String, ',' ∉ post.data →
       splitPanicText (pre ++ ", " ++ post) = .ok (pre, strTrim post)) ∧
    splitPanicText "assertion failed: a == b, src/lib.rs:10:5" =
      .ok ("assertion failed: a == b", "src/lib.rs:10:5") ∧
    TestFailureLocation.fromStr "src/lib.rs:10:5" = .ok ⟨"src/lib.rs", 10, 5⟩ := by
  refine ⟨?_, by rfl, by rfl⟩
  intro pre post h
  have hdata : (pre ++ ", " ++ post).data = pre.data ++ ',' :: ' ' :: post.data := by
    show (pre.data ++ ", ".data) ++ post.data = _
    simp
  have hys : ',' ∉ (' ' :: post.data) := by
    intro hm
    rcases List.mem_cons.mp hm with h1 | h2
    · exact absurd h1 (by decide)
    · exact h h2
  unfold splitPanicText
  rw [hdata, rfindIdx_append pre.data hys]
  have ht : (pre.data ++ ',' :: ' ' :: post.data).take pre.data.length = pre.data :=
    List.take_left pre.data _
  have hd : (pre.data ++ ',' :: ' ' :: post.data).drop pre.data.length = ',' :: ' ' :: post.data :=
    List.drop_left pre.data _
  simp only [ht, hd]
  have hstrip : stripPre? ", ".data (',' :: ' ' :: post.data) = some post.data := by
    show stripPre? [',', ' '] _ = _
    simp [stripPre?]
  rw [hstrip]
  rfl

/-- C1 witness: the split law applied at concrete panic text. -/
theorem panic_split_law_witness :
    splitPanicText ("x, y" ++ ", " ++ "f:1:2") = .ok ("x, y", strTrim "f:1:2") :=
  panic_split_law.1 "x, y" "f:1:2" (by decide)

/-- C2 counterexample: for the doctest name `src/lib.rs - (line 42)` and
reported location line 44, column 1, the code corrects the location to
line 83 (44 + 42 - 3), column 5, not to line 43 as the claim states. -/
theorem doctest_correction_example_refuted :
    doctestCorrection "src/lib.rs - (line 42)" ⟨"src/lib.rs", 44, 1⟩ =
      .ok ("src/lib.rs", 83, 5) ∧
    ¬ doctestCorrection "src/lib.rs - (line 42)" ⟨"src/lib.rs", 44, 1⟩ =
        .ok ("src/lib.rs", 43, 5) := by
  constructor
  · rfl
  · decide

/-- C2 (amended): when the doctest name matches the
`<file> - (line N)` shape, the corrected location is
`real_line = reported_line + N - 3`, `real_column = reported_column + 4`;
at the concrete instance of the claim this yields line 83, column 5. -/
theorem doctest_correction_formula :
    (∀ name loc file n, doctestNameCaptures name = some (file, n) →
       doctestCorrection name loc = .ok (file, loc.line + n - 3, loc.column + 4)) ∧
    doctestCorrection "src/lib.rs - (line 42)" ⟨"src/lib.rs", 44, 1⟩ =
      .ok ("src/lib.rs", 83, 5) := by
  constructor
  · intro name loc file n h
    unfold doctestCorrection
    rw [h]
  · rfl

/-- C2 witness: the correction formula applied at a concrete name and
location. -/
theorem doctest_correction_formula_witness :
    doctestCorrection "a - (line 7)" ⟨"a", 10, 2⟩ = .ok ("a", 14, 6) := by
  simpa using doctest_correction_formula.1 "a - (line 7)" ⟨"a", 10, 2⟩ "a" 7 (by rfl)

/-- C8: parsing is deterministic; the same stream contents yield the same
structurally equal run sequence. -/
theorem parse_deterministic :
    ∀ pkgs s1 s2, s1 = s2 → parse pkgs s1 = parse pkgs s2 := by
  intro pkgs s1 s2 h
  rw [h]

/-- C8 witness: determinism applied at a concrete stream. -/
theorem parse_deterministic_witness : parse [pkgA] c4stream = parse [pkgA] c4stream :=
  parse_deterministic [pkgA] c4stream c4stream rfl

/-- C5: in the Initial state a line matching the running-count pattern
(including the singular form) sets the declared count to the captured N
and moves to Tests when N is positive and directly to Results when N is
zero; a non-matching line leaves the parser unchanged. -/
theorem initial_running_line :
    (∀ p text stream n, p.state = .initial → runningCaptures text = some n →
       handleText p text stream =
         .ok ({ p with test_count := n,
                       state := if n > 0 then .tests else .results }, stream)) ∧
    (∀ p text stream, p.state = .initial → runningCaptures text = none →
       handleText p text stream = .ok (p, stream)) ∧
    runningCaptures "running 1 test" = some 1 ∧
    runningCaptures "running 0 tests" = some 0 ∧
    runningCaptures "running 7 tests" = some 7 ∧
    runningCaptures "test a ... ok" = none := by
  refine ⟨?_, ?_, by rfl, by rfl, by rfl, by rfl⟩
  · intro p text stream n h1 h2
    unfold handleText
    rw [h1, h2]
  · intro p text stream h1 h2
    unfold handleText
    rw [h1, h2]

/-- C5 witness: the Initial-state step applied at concrete lines. -/
theorem initial_running_line_witness :
    handleText pInit "running 0 tests" [] =
      .ok ({ pInit with test_count := 0,
                        state := if 0 > 0 then .tests else .results }, []) ∧
    handleText pInit "hello" [] = .ok (pInit, []) :=
  ⟨initial_running_line.1 pInit "running 0 tests" [] 0 rfl (by rfl),
   initial_running_line.2.1 pInit "hello" [] rfl (by rfl)⟩

/-- C10: the panic-text split panics with the `regular panic format`
assertion message, rather than returning a recoverable error, both when
the accumulated text has no comma and when the part after the last comma
does not begin with a comma-space; the branch is reachable: the concrete
stream with comma-free panic text makes the whole parse abort with this
panic. -/
theorem panic_split_assertions :
    (∀ s : String, ',' ∉ s.data →
       splitPanicText s = .error (.panic "regular panic format")) ∧
    (∀ pre post : String, ',' ∉ post.data → post.data.head? ≠ some ' ' →
       splitPanicText (pre ++ "," ++ post) = .error (.panic "regular panic format")) ∧
    parse [pkgA] c10stream = .error (.panic "regular panic format") := by
  refine ⟨?_, ?_, by rfl⟩
  · intro s h
    unfold splitPanicText
    rw [rfindIdx_eq_none h]
  · intro pre post h1 h2
    have hdata : (pre ++ "," ++ post).data = pre.data ++ ',' :: post.data := by
      show (pre.data ++ ",".data) ++ post.data = _
      simp
    unfold splitPanicText
    rw [hdata, rfindIdx_append pre.data h1]
    have hd : (pre.data ++ ',' :: post.data).drop pre.data.length = ',' :: post.data :=
      List.drop_left pre.data _
    simp only [hd]
    have hstrip : stripPre? ", ".data (',' :: post.data) = none := by
      show stripPre? [',', ' '] _ = _
      cases hp : post.data with
      | nil => simp [stripPre?]
      | cons c cs =>
        have hne : ' ' ≠ c := by
          intro he
          exact h2 (by rw [hp, ← he]; rfl)
        simp [stripPre?, hne]
    rw [hstrip]

/-- C10 witness: the assertion branches applied at concrete panic text. -/
theorem panic_split_assertions_witness :
    splitPanicText "abc" = .error (.panic "regular panic format") ∧
    splitPanicText ("a" ++ "," ++ "b") = .error (.panic "regular panic format") :=
  ⟨panic_split_assertions.1 "abc" (by decide),
   panic_split_assertions.2.1 "a" "b" (by decide) (by decide)⟩

/-- Helper: one partitioner step with a current artifact whose id matches
no workspace package fails with the unresolved-package error. -/
theorem parseLoop_unresolved (fuel : Nat) (pkgs : List Package) (a : Artifact)
    (acc : List TestRun) (t : String) (rest : List Message)
    (hfind : ∀ q ∈ pkgs, q.id ≠ a.package_id) :
    parseLoop (fuel + 1) pkgs (some a) acc (.textLine t :: rest) =
      .error (.unresolvedPackage a.package_id) := by
  have hnone : pkgs.find? (fun w => w.id == a.package_id) = none := by
    apply List.find?_eq_none.mpr
    intro q hq
    simp only [beq_iff_eq]
    exact hfind q hq
  simp only [parseLoop]
  rw [hnone]

/-- C7: when the partitioner handles the first text line after an
executable artifact whose identifier matches no workspace package, it
fails with the unresolved-package error instead of skipping the segment;
the same holds for the whole parse started on such a stream. -/
theorem unresolved_package_fails :
    ∀ fuel pkgs a acc t rest, a.executable = true →
      (∀ q ∈ pkgs, q.id ≠ a.package_id) →
      parseLoop (fuel + 1) pkgs (some a) acc (.textLine t :: rest) =
        .error (.unresolvedPackage a.package_id) ∧
      parse pkgs (.compilerArtifact a :: .textLine t :: rest) =
        .error (.unresolvedPackage a.package_id) := by
  intro fuel pkgs a acc t rest hexec hfind
  refine ⟨parseLoop_unresolved fuel pkgs a acc t rest hfind, ?_⟩
  show parseLoop ((Message.compilerArtifact a :: Message.textLine t :: rest).length + 1)
      pkgs none [] _ = _
  have hlen : (Message.compilerArtifact a :: Message.textLine t :: rest).length + 1 =
      (rest.length + 2) + 1 := by
    simp
  rw [hlen]
  show (if a.executable then parseLoop (rest.length + 2) pkgs (some a) [] _
        else parseLoop (rest.length + 2) pkgs none [] _) = _
  rw [if_pos hexec]
  exact parseLoop_unresolved (rest.length + 1) pkgs a [] t rest hfind

/-- C7 witness: the unresolved-package failure at a concrete artifact and
package list. -/
theorem unresolved_package_fails_witness :
    parseLoop 1 [pkgA] (some ⟨"pkg-id-zzz", true, []⟩) [] (.textLine "hi" :: []) =
      .error (.unresolvedPackage "pkg-id-zzz") ∧
    parse [pkgA] (.compilerArtifact ⟨"pkg-id-zzz", true, []⟩ :: .textLine "hi" :: []) =
      .error (.unresolvedPackage "pkg-id-zzz") :=
  unresolved_package_fails 0 [pkgA] ⟨"pkg-id-zzz", true, []⟩ [] "hi" [] rfl (by decide)

/-- Helper: with no current artifact, the partitioner keeps none across a
prefix of records that are neither text lines nor executable artifacts and
then panics at the first text line. -/
theorem parseLoop_no_artifact (pre : List Message) :
    ∀ fuel pkgs acc t rest,
      (∀ m ∈ pre, m.isText = false ∧ m.isExecArtifact = false) →
      parseLoop (pre.length + (fuel + 1)) pkgs none acc (pre ++ .textLine t :: rest) =
        .error (.panic "No current artifact. Is the input data malformed?") := by
  induction pre with
  | nil =>
    intro fuel pkgs acc t rest _
    rfl
  | cons m pre ih =>
    intro fuel pkgs acc t rest h
    have hm := h m (List.mem_cons_self m pre)
    have hpre : ∀ x ∈ pre, x.isText = false ∧ x.isExecArtifact = false :=
      fun x hx => h x (List.mem_cons_of_mem m hx)
    have hlen : (m :: pre).length + (fuel + 1) = (pre.length + (fuel + 1)) + 1 := by
      simp [Nat.add_assoc, Nat.add_comm, Nat.add_left_comm]
    rw [hlen]
    cases m with
    | textLine s => simp [Message.isText] at hm
    | other =>
      show parseLoop (pre.length + (fuel + 1)) pkgs none acc (pre ++ .textLine t :: rest) = _
      exact ih fuel pkgs acc t rest hpre
    | compilerArtifact a =>
      have ha : a.executable = false := by
        simpa [Message.isExecArtifact] using hm.2
      show (if a.executable then parseLoop (pre.length + (fuel + 1)) pkgs (some a) acc _
            else parseLoop (pre.length + (fuel + 1)) pkgs none acc _) = _
      rw [if_neg (by simp [ha])]
      exact ih fuel pkgs acc t rest hpre

/-- C9: a text line arriving before any executable-artifact record makes
the partitioner abort through the `No current artifact` expect panic, not
through a recoverable error value. -/
theorem text_before_artifact_panics :
    ∀ pkgs pre t rest,
      (∀ m ∈ pre, m.isText = false ∧ m.isExecArtifact = false) →
      parse pkgs (pre ++ .textLine t :: rest) =
        .error (.panic "No current artifact. Is the input data malformed?") := by
  intro pkgs pre t rest h
  show parseLoop ((pre ++ Message.textLine t :: rest).length + 1) pkgs none [] _ = _
  have hlen : (pre ++ Message.textLine t :: rest).length + 1 =
      pre.length + ((rest.length + 1) + 1) := by
    simp [List.length_append]
    omega
  rw [hlen]
  exact parseLoop_no_artifact pre (rest.length + 1) pkgs [] t rest h

/-- C9 witness: the panic at a concrete stream that opens with an ignored
record and a non-executable artifact before the first text line. -/
theorem text_before_artifact_panics_witness :
    parse [] ([.other, .compilerArtifact ⟨"x", false, []⟩] ++ .textLine "hello" :: []) =
      .error (.panic "No current artifact. Is the input data malformed?") :=
  text_before_artifact_panics [] [.other, .compilerArtifact ⟨"x", false, []⟩] "hello" []
    (by decide)

/-- C3 counterexample: on a stream whose failure header names `c` while
the recorded results are `a` and `b`, the parse aborts through the
`Option::unwrap` panic of the name lookup, not through a recoverable
`NoSuchPendingResult` error value (no such error exists in the code). -/
theorem unknown_failure_name_panics :
    parse [pkgA] c3stream = .error (.panic unwrapMsg) := by rfl

/-- C3 (amended): a failure block whose name matches no pending result
aborts the parse through the panic of the unwrapped lookup, so the
failure is never silently dropped; when the name does match, the failure
info is spliced into the first pending result with that name. -/
theorem failure_attachment :
    (∀ (rs : List TestResultParseResult) nm (info : TestFailureInfo),
       (∀ r ∈ rs, r.name ≠ nm) →
       attachFailure rs nm info = .error (.panic unwrapMsg)) ∧
    (∀ (pre : List TestResultParseResult) r post nm (info : TestFailureInfo),
       (∀ x ∈ pre, x.name ≠ nm) → r.name = nm →
       attachFailure (pre ++ r :: post) nm info =
         .ok (pre ++ { r with failure_info := some info } :: post)) := by
  constructor
  · intro rs nm info h
    induction rs with
    | nil => rfl
    | cons r rs ih =>
      have hr : r.name ≠ nm := h r (List.mem_cons_self r rs)
      have hrs : ∀ x ∈ rs, x.name ≠ nm := fun x hx => h x (List.mem_cons_of_mem r hx)
      simp only [attachFailure]
      rw [if_neg hr, ih hrs]
  · intro pre r post nm info hpre hr
    induction pre with
    | nil =>
      simp only [List.nil_append, attachFailure]
      rw [if_pos hr]
    | cons x pre ih =>
      have hx : x.name ≠ nm := hpre x (List.mem_cons_self x pre)
      have hpre2 : ∀ y ∈ pre, y.name ≠ nm := fun y hy => hpre y (List.mem_cons_of_mem x hy)
      simp only [List.cons_append, attachFailure, List.append_eq]
      rw [if_neg hx, ih hpre2]

/-- C3 witness: the attachment dichotomy at concrete pending results. -/
theorem failure_attachment_witness :
    attachFailure [⟨"a", .ok, none⟩] "zz" infoW = .error (.panic unwrapMsg) ∧
    attachFailure ([⟨"a", .ok, none⟩] ++ ⟨"b", .failed, none⟩ :: []) "b" infoW =
      .ok ([⟨"a", .ok, none⟩] ++ (⟨"b", .failed, some infoW⟩ : TestResultParseResult) :: []) :=
  ⟨failure_attachment.1 [⟨"a", .ok, none⟩] "zz" infoW (by decide),
   failure_attachment.2 [⟨"a", .ok, none⟩] ⟨"b", .failed, none⟩ [] "b" infoW (by decide) rfl⟩

/-- C4 counterexample: `c4stream` contains a failure line, parses to
completion, and its run carries exactly one attached failure info and one
failed result while the summary line reports five failures, so the
attached count does not equal the summary count. -/
theorem failure_count_vs_summary_refuted :
    (parse [pkgA] c4stream).map
        (fun runs => runs.map
          (fun r => (r.test_run.failureInfoCount, r.test_run.failedCount,
                     r.test_run.test_summary.failed))) =
      .ok [(1, 1, 5)] ∧ (1 : Nat) ≠ 5 :=
  ⟨by rfl, by decide⟩

/-- C4 (amended): on every successful parse the number of failure infos
attached to a test data equals its number of failed results (it is never
validated against the summary failed count), and the result conversion
panics on a failed result whose info was never spliced in, so a success
cannot carry an info-less failure. -/
theorem failure_info_count_invariant :
    (∀ pkgs stream runs, parse pkgs stream = .ok runs →
       ∀ run ∈ runs, run.test_run.failureInfoCount = run.test_run.failedCount ∧
         run.doc_test_run.failureInfoCount = run.doc_test_run.failedCount) ∧
    (∀ t : TestResultParseResult, t.kind = .failed → t.failure_info = none →
       t.toTestResult = .error (.panic unwrapMsg)) := by
  constructor
  · intro pkgs stream runs _ run _
    exact ⟨testData_count_eq run.test_run, testData_count_eq run.doc_test_run⟩
  · intro t h1 h2
    obtain ⟨nm, k, fi⟩ := t
    cases h1
    cases h2
    rfl

/-- C4 witness: the invariant applied to the run parsed from `c4stream`
and the conversion panic applied to a concrete info-less failed result. -/
theorem failure_info_count_invariant_witness :
    (c4run.test_run.failureInfoCount = c4run.test_run.failedCount ∧
     c4run.doc_test_run.failureInfoCount = c4run.doc_test_run.failedCount) ∧
    TestResultParseResult.toTestResult ⟨"t", .failed, none⟩ = .error (.panic unwrapMsg) :=
  ⟨failure_info_count_invariant.1 [pkgA] c4stream c4runs (by rfl) c4run (by decide),
   failure_info_count_invariant.2 ⟨"t", .failed, none⟩ rfl rfl⟩

/-- C6: a non-text record consumed while the run parser state machine is
inside a segment aborts the parse with the unexpected-record error
carrying the offending record and the parser state, both at the main-loop
consume (any live phase and state) and at the trailing consume of the
inner failure machine (whose parser state is `FailuresOutput`). -/
theorem unexpected_record_aborts :
    (∀ fuel p m rest, p.phase ≠ .done → p.state ≠ .done → m.isText = false →
       runParserLoop (fuel + 1) p (m :: rest) = .error (.unexpectedRecord m p.state)) ∧
    (∀ fuel fps ti acc m rest, fps ≠ .done → m.isText = false →
       failureInner (fuel + 1) fps ti acc (m :: rest) =
         .error (.unexpectedRecord m .failuresOutput)) := by
  constructor
  · intro fuel p m rest h1 h2 h3
    cases m with
    | textLine s => simp [Message.isText] at h3
    | compilerArtifact a =>
      simp only [runParserLoop]
      rw [if_neg h1, if_neg h2]
    | other =>
      simp only [runParserLoop]
      rw [if_neg h1, if_neg h2]
  · intro fuel fps ti acc m rest h1 h2
    cases m with
    | textLine s => simp [Message.isText] at h2
    | compilerArtifact a =>
      cases fps with
      | done => exact absurd rfl h1
      | initial =>
        by_cases hc : trimL ti.data = "failures:".data <;>
          simp [failureInner, failureStep, hc]
      | header =>
        cases hh : failureHeaderCaptures ti <;>
          simp [failureInner, failureStep, hh]
      | panic => rfl
      | stacktrace => rfl
    | other =>
      cases fps with
      | done => exact absurd rfl h1
      | initial =>
        by_cases hc : trimL ti.data = "failures:".data <;>
          simp [failureInner, failureStep, hc]
      | header =>
        cases hh : failureHeaderCaptures ti <;>
          simp [failureInner, failureStep, hh]
      | panic => rfl
      | stacktrace => rfl

/-- C6 witness: the abort applied at a concrete non-text record, for both
consume sites. -/
theorem unexpected_record_aborts_witness :
    runParserLoop 1 pInit [.other] = .error (.unexpectedRecord .other .initial) ∧
    failureInner 1 .header "" {} [.other] = .error (.unexpectedRecord .other .failuresOutput) :=
  ⟨unexpected_record_aborts.1 0 pInit .other [] (by decide) (by decide) rfl,
   unexpected_record_aborts.2 0 .header "" {} .other [] (by decide) rfl⟩
